import Mathlib

/-!
# Verification of the bot-detection analysis pipeline

Shallow embedding of the scoring, troll-farm-detection and feature-extraction
logic of the repository (src/bot_scorer.py, src/troll_farm_detector.py,
src/feature_extractor.py).  Python floats are modelled by `ℚ`: every score is a
sum of the literal constants 15, 10, 7.5, 5, 3, 2 (dyadic rationals below 2^11),
so all arithmetic performed by the scorer is exact in IEEE double and the
rational model is faithful.
-/

namespace BotDetection

/-! ## bot_scorer.py -/

/-- The feature columns read by `BotScorer` (one row of the features
DataFrame).  Numeric columns are rationals, flag columns booleans, matching
the values produced by `FeatureExtractor`. -/
structure FeatureRow where
  username : String
  follower_following_ratio : ℚ
  avg_engagement_per_tweet : ℚ
  favorites_tweets_ratio : ℚ
  account_created_year : ℤ
  created_same_month_as_dataset : Bool
  lifetime_tweets_per_day : ℚ
  reply_ratio_pct : ℚ
  avg_text_similarity_pct : ℚ
  topic_concentration_pct : ℚ
  posting_freq_tweets_per_day : ℚ
  bot_username_pattern : Bool
  has_default_profile_image : Bool
  avg_hashtags_per_tweet : ℚ
  has_long_hashtag : Bool
  retweet_ratio_pct : ℚ
  has_empty_description : Bool
  has_no_location : Bool
  avg_mentions_per_tweet : ℚ
  is_verified : Bool
  has_blue : Bool

/-- Troll-farm membership indicator of `_calculate_tier1_score`:
`if username in self.troll_farm_members: score += 15`. -/
def troll_farm_points (troll_farm_members : List String) (r : FeatureRow) : ℚ :=
  if troll_farm_members.contains r.username then 15 else 0

/-- Follower/following band of `_calculate_tier1_score`. -/
def follower_ratio_points (r : FeatureRow) : ℚ :=
  if r.follower_following_ratio < 1/10 then 15
  else if r.follower_following_ratio ≤ 3/10 then 10
  else if r.follower_following_ratio ≤ 5/10 then 5
  else 0

/-- Engagement band of `_calculate_tier1_score`. -/
def engagement_points (r : FeatureRow) : ℚ :=
  if r.avg_engagement_per_tweet < 1/2 then 15
  else if r.avg_engagement_per_tweet ≤ 2 then 10
  else if r.avg_engagement_per_tweet ≤ 5 then 5
  else 0

/-- Favorites-to-tweets band of `_calculate_tier1_score`. -/
def favorites_points (r : FeatureRow) : ℚ :=
  if r.favorites_tweets_ratio < 1/10 then 15
  else if r.favorites_tweets_ratio ≤ 3/10 then 10
  else if r.favorites_tweets_ratio ≤ 5/10 then 5
  else 0

/-- Account-age band of `_calculate_tier1_score`: same month as the dataset
gives 15, otherwise a 2024 creation year gives 7.5, otherwise 0. -/
def account_age_points (r : FeatureRow) : ℚ :=
  if r.created_same_month_as_dataset then 15
  else if r.account_created_year = 2024 then 15/2
  else 0

/-- Lifetime-activity band of `_calculate_tier1_score`. -/
def lifetime_activity_points (r : FeatureRow) : ℚ :=
  if r.lifetime_tweets_per_day > 100 then 15
  else if r.lifetime_tweets_per_day ≥ 50 then 10
  else if r.lifetime_tweets_per_day ≥ 25 then 5
  else 0

/-- Reply-ratio band of `_calculate_tier1_score`. -/
def reply_ratio_points (r : FeatureRow) : ℚ :=
  if r.reply_ratio_pct ≥ 80 then 15
  else if r.reply_ratio_pct ≥ 66 then 10
  else if r.reply_ratio_pct ≥ 50 then 5
  else 0

/-- Text-similarity band of `_calculate_tier1_score`. -/
def text_similarity_points (r : FeatureRow) : ℚ :=
  if r.avg_text_similarity_pct > 80 then 15
  else if r.avg_text_similarity_pct ≥ 60 then 10
  else if r.avg_text_similarity_pct ≥ 40 then 5
  else 0

/-- Topic-concentration band of `_calculate_tier1_score`. -/
def topic_concentration_points (r : FeatureRow) : ℚ :=
  if r.topic_concentration_pct = 100 then 15
  else if r.topic_concentration_pct ≥ 80 then 10
  else if r.topic_concentration_pct > 70 then 5
  else 0

/-- `_calculate_tier1_score`: the running `score` accumulates nine
independent indicator bands, so it equals their sum. -/
def calculate_tier1_score (troll_farm_members : List String) (r : FeatureRow) : ℚ :=
  troll_farm_points troll_farm_members r +
  follower_ratio_points r +
  engagement_points r +
  favorites_points r +
  account_age_points r +
  lifetime_activity_points r +
  reply_ratio_points r +
  text_similarity_points r +
  topic_concentration_points r

/-- Posting-frequency band of `_calculate_tier2_score`. -/
def posting_freq_points (r : FeatureRow) : ℚ :=
  if r.posting_freq_tweets_per_day > 50 then 10
  else if r.posting_freq_tweets_per_day ≥ 30 then 7
  else if r.posting_freq_tweets_per_day ≥ 20 then 3
  else 0

/-- `_calculate_tier2_score`. -/
def calculate_tier2_score (r : FeatureRow) : ℚ :=
  posting_freq_points r +
  (if r.bot_username_pattern then 10 else 0) +
  (if r.has_default_profile_image then 10 else 0)

/-- Hashtag band of `_calculate_tier3_score`. -/
def hashtag_points (r : FeatureRow) : ℚ :=
  if r.avg_hashtags_per_tweet > 3 then 5
  else if r.has_long_hashtag then 3
  else 0

/-- Retweet-ratio band of `_calculate_tier3_score`. -/
def retweet_ratio_points (r : FeatureRow) : ℚ :=
  if r.retweet_ratio_pct > 80 then 5
  else if r.retweet_ratio_pct ≥ 60 then 3
  else 0

/-- Profile-completeness band of `_calculate_tier3_score`:
`min(profile_score, 5)` where empty description and missing location each
contribute 2. -/
def profile_completeness_points (r : FeatureRow) : ℚ :=
  min ((if r.has_empty_description then 2 else 0) +
       (if r.has_no_location then 2 else 0)) 5

/-- `_calculate_tier3_score`. -/
def calculate_tier3_score (r : FeatureRow) : ℚ :=
  hashtag_points r +
  retweet_ratio_points r +
  profile_completeness_points r +
  (if r.avg_mentions_per_tweet > 3 then 5 else 0)

/-- `total_score_before_verification` column of `calculate_all_scores`. -/
def total_score_before_verification (troll_farm_members : List String)
    (r : FeatureRow) : ℚ :=
  calculate_tier1_score troll_farm_members r +
  calculate_tier2_score r +
  calculate_tier3_score r

/-- `is_verified_or_blue` column of `calculate_all_scores`. -/
def is_verified_or_blue (r : FeatureRow) : Bool :=
  r.is_verified || r.has_blue

/-- `total_score` column of `calculate_all_scores`: verified-or-blue
accounts get the flat 25% reduction (`* 0.75`). -/
def total_score (troll_farm_members : List String) (r : FeatureRow) : ℚ :=
  if is_verified_or_blue r then
    total_score_before_verification troll_farm_members r * (75/100)
  else
    total_score_before_verification troll_farm_members r

/-- `_classify_user`. -/
def classify_user (t : ℚ) : String :=
  if t ≤ 35 then "Likely Human"
  else if t ≤ 60 then "Suspicious"
  else if t ≤ 85 then "Likely Bot"
  else "Definite Bot"

/-- `classification` column of `calculate_all_scores`. -/
def classification (troll_farm_members : List String) (r : FeatureRow) : String :=
  classify_user (total_score troll_farm_members r)

/-- `flagged_for_review` column of `calculate_all_scores`:
`total_score >= 86`. -/
def flagged_for_review (troll_farm_members : List String) (r : FeatureRow) : Bool :=
  total_score troll_farm_members r ≥ 86

/-- A concrete feature row with all-quiet indicator values, used to
instantiate universally quantified theorems at concrete inputs. -/
def defaultRow : FeatureRow where
  username := "u"
  follower_following_ratio := 999
  avg_engagement_per_tweet := 6
  favorites_tweets_ratio := 1
  account_created_year := 0
  created_same_month_as_dataset := false
  lifetime_tweets_per_day := 0
  reply_ratio_pct := 0
  avg_text_similarity_pct := 0
  topic_concentration_pct := 0
  posting_freq_tweets_per_day := 0
  bot_username_pattern := false
  has_default_profile_image := false
  avg_hashtags_per_tweet := 0
  has_long_hashtag := false
  retweet_ratio_pct := 0
  has_empty_description := false
  has_no_location := false
  avg_mentions_per_tweet := 0
  is_verified := false
  has_blue := false

/-- A concrete feature row reaching a pre-discount total of exactly 85.5:
tier 1 = 15 (troll farm) + 15 (follower ratio) + 15 (engagement)
+ 15 (favorites) + 7.5 (created in 2024, not the dataset month)
+ 15 (lifetime activity), tier 2 = 3 (posting frequency 20), tier 3 = 0. -/
def midBandRow : FeatureRow where
  username := "farm_user"
  follower_following_ratio := 1/20
  avg_engagement_per_tweet := 1/4
  favorites_tweets_ratio := 1/20
  account_created_year := 2024
  created_same_month_as_dataset := false
  lifetime_tweets_per_day := 150
  reply_ratio_pct := 0
  avg_text_similarity_pct := 0
  topic_concentration_pct := 0
  posting_freq_tweets_per_day := 20
  bot_username_pattern := false
  has_default_profile_image := false
  avg_hashtags_per_tweet := 0
  has_long_hashtag := false
  retweet_ratio_pct := 0
  has_empty_description := false
  has_no_location := false
  avg_mentions_per_tweet := 0
  is_verified := false
  has_blue := false

/-- Numeric rank of the four classification bands, for stating
monotonicity. -/
def band_rank (label : String) : ℕ :=
  if label = "Likely Human" then 0
  else if label = "Suspicious" then 1
  else if label = "Likely Bot" then 2
  else 3

/-! ## troll_farm_detector.py -/

/-- Python's `\s` class (and `str.strip` / `str.isspace`) on the ASCII
range: space, tab, newline, vertical tab, form feed, carriage return. -/
def isPySpace (c : Char) : Bool :=
  c = ' ' || c = '\t' || c = '\n' || c = '\x0b' || c = '\x0c' || c = '\r'

/-- Whether the regex `http\S+|https\S+` matches at the start of `l`: the
four characters `http` followed by at least one non-whitespace character
(`https…` is already covered by the first alternative with `\S+`
consuming the `s`). -/
def startsUrlMatch : List Char → Bool
  | a :: b :: c :: d :: e :: _ =>
      a = 'h' && b = 't' && c = 't' && d = 'p' && !isPySpace e
  | _ => false

/-- Drop the maximal leading run of non-whitespace characters (the greedy
`\S+` of the URL regex). -/
def dropUrlRest : List Char → List Char
  | [] => []
  | c :: cs => if isPySpace c then c :: cs else dropUrlRest cs

lemma dropUrlRest_length (l : List Char) : (dropUrlRest l).length ≤ l.length := by
  induction l with
  | nil => simp [dropUrlRest]
  | cons c cs ih =>
    rw [dropUrlRest]
    split_ifs <;> simp <;> omega

/-- `re.sub(r'http\S+|https\S+', '', text)`: scan left to right; at each
position where the pattern matches, delete the match (the `http` plus the
maximal non-whitespace run after it) and continue after it. -/
def removeUrls : List Char → List Char
  | [] => []
  | c :: cs =>
    if startsUrlMatch (c :: cs) then removeUrls (dropUrlRest (cs.drop 3))
    else c :: removeUrls cs
termination_by l => l.length
decreasing_by
  · simp only [List.length_cons]
    have h1 := dropUrlRest_length (cs.drop 3)
    have h2 : (cs.drop 3).length ≤ cs.length := by
      rw [List.length_drop]; omega
    omega
  · simp

/-- `re.sub(r'\s+', ' ', text)`: replace every maximal whitespace run by a
single space (the run's last whitespace character emits the space). -/
def collapseWs : List Char → List Char
  | [] => []
  | [c] => if isPySpace c then [' '] else [c]
  | c :: d :: cs =>
    if isPySpace c && isPySpace d then collapseWs (d :: cs)
    else (if isPySpace c then ' ' else c) :: collapseWs (d :: cs)

/-- Drop trailing whitespace (the right half of `str.strip()`). -/
def dropTrailingWs (l : List Char) : List Char :=
  (l.reverse.dropWhile isPySpace).reverse

/-- `text.strip()`: drop leading and trailing whitespace. -/
def stripWs (l : List Char) : List Char :=
  dropTrailingWs (l.dropWhile isPySpace)

/-- `normalize_text`: empty (or NaN, see `normalize_text_cell`) input maps
to the empty string; otherwise lowercase, remove URL matches, collapse
whitespace runs to single spaces, and strip.  `Char.toLower` performs the
ASCII case mapping of `str.lower`. -/
def normalize_text (text : String) : String :=
  if text = "" then ""
  else ⟨stripWs (collapseWs (removeUrls (text.data.map Char.toLower)))⟩

/-- `normalize_text` on a nullable cell: `pd.isna(text)` yields `''`. -/
def normalize_text_cell : Option String → String
  | none => ""
  | some t => normalize_text t

/-- `l` contains no match of the URL regex: no position starts
`http` + non-whitespace. -/
def noUrl : List Char → Bool
  | [] => true
  | c :: cs => !startsUrlMatch (c :: cs) && noUrl cs

/-- Collapsed-whitespace shape: every whitespace character is a plain
space and is not followed by another whitespace character. -/
def wsOk : List Char → Bool
  | [] => true
  | [c] => !isPySpace c || c = ' '
  | c :: d :: cs => (!isPySpace c || (c = ' ' && !isPySpace d)) && wsOk (d :: cs)

/-- `l` begins with the four characters `http`. -/
def startsWithHttp : List Char → Bool
  | a :: b :: c :: d :: _ => a = 'h' && b = 't' && c = 't' && d = 'p'
  | _ => false

/-- Auxiliary scan for `hasHttpToken`: an `http`-initial token after some
whitespace character. -/
def hasHttpTokenAux : List Char → Bool
  | [] => false
  | c :: cs => (isPySpace c && startsWithHttp cs) || hasHttpTokenAux cs

/-- The string contains a whitespace-delimited token beginning with
`http` (hence also any `https` token). -/
def hasHttpToken (s : String) : Bool :=
  startsWithHttp s.data || hasHttpTokenAux s.data

/-- A value of the `retweetedTweet` column, which mixes typed and
stringified nulls: missing values, booleans, and serialized strings. -/
inductive CellValue where
  | null : CellValue
  | boolean : Bool → CellValue
  | str : String → CellValue
deriving DecidableEq

/-- One raw tweet row as consumed by `TrollFarmDetector`. -/
structure RawPost where
  username : String
  text : String
  retweetedTweet : CellValue
deriving DecidableEq

/-- The row predicate of `filter_original_tweets`: a post is kept iff its
`retweetedTweet` cell is NaN, the boolean `False`, or one of the literal
strings `'False'`, `''`, `'nan'`, `'[]'` (pandas `==` compares a boolean
cell only against `False` and a string cell only against the string
literals). -/
def is_original_tweet : CellValue → Bool
  | .null => true
  | .boolean b => !b
  | .str s => s = "False" || s = "" || s = "nan" || s = "[]"

/-- `filter_original_tweets`. -/
def filter_original_tweets (posts : List RawPost) : List RawPost :=
  posts.filter (fun p => is_original_tweet p.retweetedTweet)

/-- One row of the pass-1 score table consumed by the detector
(`bot_scores[['username', 'classification', 'total_score']]`). -/
structure ScoreRow where
  username : String
  classification : String
  total_score : ℚ

/-- The classification joined onto a username by the left merge:
`None` models the NaN a username missing from the score table receives. -/
def lookup_classification (bot_scores : List ScoreRow) (u : String) : Option String :=
  (bot_scores.find? (fun row => row.username = u)).map (fun row => row.classification)

/-- `bot_labels = ['Suspicious', 'Likely Bot', 'Definite Bot']`. -/
def bot_labels : List String := ["Suspicious", "Likely Bot", "Definite Bot"]

/-- `users_df['classification'].isin(bot_labels)` for one member: a NaN
classification (unscored username) is counted as non-bot. -/
def is_bot_classified (bot_scores : List ScoreRow) (u : String) : Bool :=
  match lookup_classification bot_scores u with
  | some c => bot_labels.contains c
  | none => false

/-- `bot_count` of one message group. -/
def farm_bot_count (bot_scores : List ScoreRow) (users : List String) : ℕ :=
  (users.filter (is_bot_classified bot_scores)).length

/-- `bot_percentage = (bot_count / num_users) * 100`. -/
def farm_bot_percentage (bot_scores : List ScoreRow) (users : List String) : ℚ :=
  (farm_bot_count bot_scores users : ℚ) / (users.length : ℚ) * 100

/-- The posts of `identify_troll_farms` after normalization and removal of
empty normalized texts, as (username, normalized text) pairs. -/
def normalize_posts (posts : List RawPost) : List (String × String) :=
  (posts.map (fun p => (p.username, normalize_text p.text))).filter
    (fun q => q.2 ≠ "")

/-- The distinct posting usernames of one message group
(`unique_users = list(users.keys())`). -/
def group_usernames (posts : List (String × String)) (msg : String) : List String :=
  ((posts.filter (fun q => q.2 = msg)).map Prod.fst).dedup

/-- The distinct normalized messages (`message_groups` keys). -/
def normalized_messages (posts : List (String × String)) : List String :=
  (posts.map Prod.snd).dedup

/-- The qualification test of `identify_troll_farms`: at least
`min_accounts` distinct usernames share the message and the group's bot
percentage reaches `min_bot_percentage`. -/
def is_troll_farm (bot_scores : List ScoreRow) (posts : List (String × String))
    (msg : String) (min_accounts : ℕ) (min_bot_percentage : ℚ) : Bool :=
  min_accounts ≤ (group_usernames posts msg).length &&
  min_bot_percentage ≤ farm_bot_percentage bot_scores (group_usernames posts msg)

/-- `identify_troll_farms` on normalized posts: the shared messages of the
qualifying groups. -/
def identify_troll_farms (bot_scores : List ScoreRow)
    (posts : List (String × String)) (min_accounts : ℕ)
    (min_bot_percentage : ℚ) : List String :=
  (normalized_messages posts).filter
    (fun m => is_troll_farm bot_scores posts m min_accounts min_bot_percentage)

/-- The detector flow of `main`: filter retweets, normalize, drop empty
texts, group and qualify. -/
def detect_troll_farms (bot_scores : List ScoreRow) (raw : List RawPost)
    (min_accounts : ℕ) (min_bot_percentage : ℚ) : List String :=
  identify_troll_farms bot_scores (normalize_posts (filter_original_tweets raw))
    min_accounts min_bot_percentage

/-- Synthetic corpus: ten accounts posting byte-identical original text. -/
def tenBotRaw : List RawPost :=
  [⟨"u01", "Go vote http://x.co", .null⟩,
   ⟨"u02", "Go vote http://x.co", .boolean false⟩,
   ⟨"u03", "Go vote http://x.co", .str "False"⟩,
   ⟨"u04", "Go vote http://x.co", .str ""⟩,
   ⟨"u05", "Go vote http://x.co", .str "nan"⟩,
   ⟨"u06", "Go vote http://x.co", .str "[]"⟩,
   ⟨"u07", "Go vote http://x.co", .null⟩,
   ⟨"u08", "Go vote http://x.co", .null⟩,
   ⟨"u09", "Go vote http://x.co", .null⟩,
   ⟨"u10", "Go vote http://x.co", .null⟩]

/-- The same corpus reduced to nine accounts. -/
def nineBotRaw : List RawPost := tenBotRaw.take 9

/-- Pass-1 scores labelling all ten accounts "Definite Bot". -/
def scoresAllBot : List ScoreRow :=
  [⟨"u01", "Definite Bot", 90⟩, ⟨"u02", "Definite Bot", 90⟩,
   ⟨"u03", "Definite Bot", 90⟩, ⟨"u04", "Definite Bot", 90⟩,
   ⟨"u05", "Definite Bot", 90⟩, ⟨"u06", "Definite Bot", 90⟩,
   ⟨"u07", "Definite Bot", 90⟩, ⟨"u08", "Definite Bot", 90⟩,
   ⟨"u09", "Definite Bot", 90⟩, ⟨"u10", "Definite Bot", 90⟩]

/-- Pass-1 scores with only four bot-labelled accounts (40%). -/
def scoresFourBot : List ScoreRow :=
  [⟨"u01", "Definite Bot", 90⟩, ⟨"u02", "Likely Bot", 70⟩,
   ⟨"u03", "Suspicious", 40⟩, ⟨"u04", "Definite Bot", 90⟩,
   ⟨"u05", "Likely Human", 10⟩, ⟨"u06", "Likely Human", 10⟩,
   ⟨"u07", "Likely Human", 10⟩, ⟨"u08", "Likely Human", 10⟩,
   ⟨"u09", "Likely Human", 10⟩, ⟨"u10", "Likely Human", 10⟩]

/-- The normalized pair list the ten-account corpus reduces to. -/
def tenPairs : List (String × String) :=
  [("u01", "go vote"), ("u02", "go vote"), ("u03", "go vote"),
   ("u04", "go vote"), ("u05", "go vote"), ("u06", "go vote"),
   ("u07", "go vote"), ("u08", "go vote"), ("u09", "go vote"),
   ("u10", "go vote")]

/-- The normalized pair list of the nine-account corpus. -/
def ninePairs : List (String × String) := tenPairs.take 9

/-! ## feature_extractor.py -/

/-- Banker's rounding (round half to even): the semantics of Python's
built-in `round` on exact values. -/
def roundHalfEven (q : ℚ) : ℤ :=
  if Int.fract q < 1/2 then ⌊q⌋
  else if 1/2 < Int.fract q then ⌊q⌋ + 1
  else if ⌊q⌋ % 2 = 0 then ⌊q⌋ else ⌊q⌋ + 1

/-- Python's `round(x, ndigits)` on exact rational values. -/
def pyRound (ndigits : ℕ) (q : ℚ) : ℚ :=
  (roundHalfEven (q * 10 ^ ndigits) : ℚ) / 10 ^ ndigits

/-- `_calc_follower_ratio`: sentinel 999 when following is zero, and the
result is rounded to three decimal places (`round(ratio, 3)`). -/
def calc_follower_ratio (followers following : ℚ) : ℚ :=
  pyRound 3 (if following = 0 then 999 else followers / following)

/-- `_calc_favorites_ratio`: zero when the lifetime post count is zero,
rounded to three decimal places (`round(ratio, 3)`). -/
def calc_favorites_ratio (favorites statuses : ℚ) : ℚ :=
  pyRound 3 (if statuses = 0 then 0 else favorites / statuses)

/-- `_calc_engagement_rate`: mean of per-post reply+retweet+like sums
(missing values as 0), rounded to two decimal places. -/
def calc_engagement_rate (posts : List (Option ℚ × Option ℚ × Option ℚ)) : ℚ :=
  let totals := posts.map (fun t => t.1.getD 0 + t.2.1.getD 0 + t.2.2.getD 0)
  pyRound 2 (if totals = [] then 0 else totals.sum / totals.length)

/-- `_calc_account_activity`: lifetime posts per day since account
creation, measured against the wall clock (`datetime.now()`), at least one
day, rounded to two decimal places.  Creation and "now" are modelled in
whole days (the code truncates the difference with `.days`); a missing or
unparsable creation timestamp yields 0. -/
def calc_account_activity (statusesCount : ℕ) (created : Option ℤ)
    (now : ℤ) : ℚ :=
  match created with
  | none => 0
  | some c =>
    if statusesCount = 0 then 0
    else pyRound 2 ((statusesCount : ℚ) / ((max (now - c) 1 : ℤ) : ℚ))

/-- The slice of an `AccountRecord` consumed by the embedded feature
calculations. -/
structure AccountRecord where
  followersCount : ℚ
  friendsCount : ℚ
  favouritesCount : ℚ
  statusesCount : ℕ
  created : Option ℤ
  engagements : List (Option ℚ × Option ℚ × Option ℚ)

/-- The corresponding slice of the FeatureVector. -/
structure FeatureVec where
  follower_following_ratio : ℚ
  favorites_tweets_ratio : ℚ
  avg_engagement_per_tweet : ℚ
  lifetime_tweets_per_day : ℚ
deriving DecidableEq

/-- The embedded part of `extract_all_features`, with the wall-clock
reading of `_calc_account_activity` made an explicit argument. -/
def extract_features (r : AccountRecord) (now : ℤ) : FeatureVec where
  follower_following_ratio := calc_follower_ratio r.followersCount r.friendsCount
  favorites_tweets_ratio :=
    calc_favorites_ratio r.favouritesCount (r.statusesCount : ℚ)
  avg_engagement_per_tweet := calc_engagement_rate r.engagements
  lifetime_tweets_per_day := calc_account_activity r.statusesCount r.created now

/-- A concrete account record whose lifetime activity depends on the
clock: 100 lifetime posts, created at day 0. -/
def clockRecord : AccountRecord where
  followersCount := 1
  friendsCount := 1
  favouritesCount := 1
  statusesCount := 100
  created := some 0
  engagements := []

/-! ### Lemmas about the text normalizer -/

lemma startsUrlMatch_iff (l : List Char) :
    startsUrlMatch l = true ↔
      ∃ e r, l = 'h' :: 't' :: 't' :: 'p' :: e :: r ∧ isPySpace e = false := by
  rcases l with _ | ⟨a, _ | ⟨b, _ | ⟨c, _ | ⟨d, _ | ⟨e, r⟩⟩⟩⟩⟩ <;>
    simp [startsUrlMatch] <;> aesop

lemma startsUrlMatch_of_ne_h (c : Char) (r : List Char) (h : ¬ c = 'h') :
    startsUrlMatch (c :: r) = false := by
  rcases r with _ | ⟨b, _ | ⟨c2, _ | ⟨d, _ | ⟨e, rest⟩⟩⟩⟩ <;> simp [startsUrlMatch] <;>
    intro hc <;> exact absurd hc h

lemma startsUrlMatch_of_space (c : Char) (r : List Char) (h : isPySpace c = true) :
    startsUrlMatch (c :: r) = false := by
  apply startsUrlMatch_of_ne_h
  rintro rfl
  simp [isPySpace] at h

lemma dropUrlRest_shape (l : List Char) :
    dropUrlRest l = [] ∨
      ∃ c r, isPySpace c = true ∧ dropUrlRest l = c :: r := by
  induction l with
  | nil => left; rfl
  | cons c cs ih =>
    rw [dropUrlRest]
    split_ifs with h
    · right; exact ⟨c, cs, h, rfl⟩
    · exact ih

lemma removeUrls_nil : removeUrls [] = [] := by rw [removeUrls]

lemma removeUrls_cons_match (c : Char) (cs : List Char)
    (h : startsUrlMatch (c :: cs) = true) :
    removeUrls (c :: cs) = removeUrls (dropUrlRest (cs.drop 3)) := by
  rw [removeUrls, if_pos h]

lemma removeUrls_cons_nomatch (c : Char) (cs : List Char)
    (h : startsUrlMatch (c :: cs) = false) :
    removeUrls (c :: cs) = c :: removeUrls cs := by
  rw [removeUrls, if_neg (by simp [h])]

/-- Shape of `removeUrls` output: empty, or first char preserved with no
match at the head, or starting with a whitespace character. -/
lemma removeUrls_shape (l : List Char) :
    removeUrls l = [] ∨
      (∃ c l', l = c :: l' ∧ startsUrlMatch l = false ∧
        removeUrls l = c :: removeUrls l') ∨
      (∃ c r, isPySpace c = true ∧ removeUrls l = c :: r) := by
  induction l using removeUrls.induct with
  | case1 => left; exact removeUrls_nil
  | case2 c cs h ih =>
    -- match at head
    rw [removeUrls_cons_match c cs h]
    rcases dropUrlRest_shape (cs.drop 3) with hd | ⟨d, r, hds, hd⟩
    · rw [hd, removeUrls_nil]; left; rfl
    · rw [hd, removeUrls_cons_nomatch d r (startsUrlMatch_of_space d r hds)]
      right; right; exact ⟨d, removeUrls r, hds, rfl⟩
  | case3 c cs h ih =>
    have h' : startsUrlMatch (c :: cs) = false := by simpa using h
    right; left
    exact ⟨c, cs, rfl, h', removeUrls_cons_nomatch c cs h'⟩

/-- Under the shape property, a non-whitespace head of `f cs` is the head
of `cs` itself, with `f` commuting past it. -/
lemma shape_peel (f : List Char → List Char)
    (hf : ∀ l, f l = [] ∨
      (∃ a l', l = a :: l' ∧ f l = a :: f l') ∨
      (∃ a r, isPySpace a = true ∧ f l = a :: r))
    (cs : List Char) (x : Char) (y : List Char)
    (hx : isPySpace x = false) (h : f cs = x :: y) :
    ∃ cs', cs = x :: cs' ∧ f cs' = y := by
  rcases hf cs with h0 | ⟨a, l', heq, ha⟩ | ⟨a, r, hsp, ha⟩
  · rw [h0] at h; cases h
  · rw [ha] at h
    injection h with h1 h2
    subst h1
    exact ⟨l', heq, h2⟩
  · rw [ha] at h
    injection h with h1 h2
    subst h1
    rw [hsp] at hx
    cases hx

/-- If `f` satisfies the shape property, prepending a character to `f cs`
cannot create a URL match that `c :: cs` did not already have. -/
lemma no_new_match_of_shape (f : List Char → List Char)
    (hf : ∀ l, f l = [] ∨
      (∃ a l', l = a :: l' ∧ f l = a :: f l') ∨
      (∃ a r, isPySpace a = true ∧ f l = a :: r))
    (c : Char) (cs : List Char)
    (h : startsUrlMatch (c :: f cs) = true) :
    startsUrlMatch (c :: cs) = true := by
  obtain ⟨e, r, heq, hsp⟩ := (startsUrlMatch_iff _).mp h
  injection heq with hc hrest
  obtain ⟨cs1, rfl, h1⟩ := shape_peel f hf cs 't' _ (by decide) hrest
  obtain ⟨cs2, rfl, h2⟩ := shape_peel f hf cs1 't' _ (by decide) h1
  obtain ⟨cs3, rfl, h3⟩ := shape_peel f hf cs2 'p' _ (by decide) h2
  obtain ⟨cs4, rfl, h4⟩ := shape_peel f hf cs3 e _ hsp h3
  subst hc
  exact (startsUrlMatch_iff _).mpr ⟨e, cs4, rfl, hsp⟩

lemma noUrl_cons (c : Char) (cs : List Char) :
    noUrl (c :: cs) = (!startsUrlMatch (c :: cs) && noUrl cs) := rfl

lemma noUrl_tail {c : Char} {cs : List Char} (h : noUrl (c :: cs) = true) :
    noUrl cs = true := by
  rw [noUrl_cons] at h
  exact (Bool.and_eq_true_iff.mp h).2

lemma noUrl_head {c : Char} {cs : List Char} (h : noUrl (c :: cs) = true) :
    startsUrlMatch (c :: cs) = false := by
  rw [noUrl_cons] at h
  simpa using (Bool.and_eq_true_iff.mp h).1

/-- The shape property holds for `removeUrls` (weakened from
`removeUrls_shape`). -/
lemma removeUrls_shape' (l : List Char) :
    removeUrls l = [] ∨
      (∃ a l', l = a :: l' ∧ removeUrls l = a :: removeUrls l') ∨
      (∃ a r, isPySpace a = true ∧ removeUrls l = a :: r) := by
  rcases removeUrls_shape l with h | ⟨c, l', h1, h2, h3⟩ | h
  · exact Or.inl h
  · exact Or.inr (Or.inl ⟨c, l', h1, h3⟩)
  · exact Or.inr (Or.inr h)

/-- The output of `removeUrls` contains no URL match. -/
lemma noUrl_removeUrls (l : List Char) : noUrl (removeUrls l) = true := by
  induction l using removeUrls.induct with
  | case1 => rw [removeUrls_nil]; rfl
  | case2 c cs h ih => rw [removeUrls_cons_match c cs h]; exact ih
  | case3 c cs h ih =>
    have h' : startsUrlMatch (c :: cs) = false := by simpa using h
    rw [removeUrls_cons_nomatch c cs h']
    rcases hr : removeUrls cs with _ | ⟨x, xs⟩
    · rfl
    · rw [noUrl_cons]
      rw [hr] at ih
      refine Bool.and_eq_true_iff.mpr ⟨?_, ih⟩
      simp only [Bool.not_eq_true']
      by_contra hcon
      rw [Bool.not_eq_false] at hcon
      have := no_new_match_of_shape removeUrls removeUrls_shape' c cs (by rw [hr]; exact hcon)
      rw [this] at h'
      cases h'

/-- A list without URL matches is a fixed point of `removeUrls`. -/
lemma removeUrls_of_noUrl (l : List Char) (h : noUrl l = true) :
    removeUrls l = l := by
  induction l with
  | nil => exact removeUrls_nil
  | cons c cs ih =>
    rw [removeUrls_cons_nomatch c cs (noUrl_head h), ih (noUrl_tail h)]

lemma startsUrlMatch_append (l l₂ : List Char) (h : startsUrlMatch l = true) :
    startsUrlMatch (l ++ l₂) = true := by
  obtain ⟨e, r, rfl, hsp⟩ := (startsUrlMatch_iff _).mp h
  exact (startsUrlMatch_iff _).mpr ⟨e, r ++ l₂, by simp, hsp⟩

lemma noUrl_append_left (l₁ l₂ : List Char) (h : noUrl (l₁ ++ l₂) = true) :
    noUrl l₁ = true := by
  induction l₁ with
  | nil => rfl
  | cons c cs ih =>
    rw [List.cons_append] at h
    rw [noUrl_cons]
    refine Bool.and_eq_true_iff.mpr ⟨?_, ih (noUrl_tail h)⟩
    simp only [Bool.not_eq_true']
    by_contra hcon
    rw [Bool.not_eq_false] at hcon
    have := startsUrlMatch_append (c :: cs) l₂ hcon
    rw [List.cons_append] at this
    rw [noUrl_head h] at this
    cases this

lemma noUrl_append_right (l₁ l₂ : List Char) (h : noUrl (l₁ ++ l₂) = true) :
    noUrl l₂ = true := by
  induction l₁ with
  | nil => exact h
  | cons c cs ih => exact ih (noUrl_tail (by rwa [List.cons_append] at h))

/-- `collapseWs` of a non-whitespace-headed list keeps its head. -/
lemma collapseWs_cons_nonspace (c : Char) (cs : List Char)
    (h : isPySpace c = false) :
    collapseWs (c :: cs) = c :: collapseWs cs := by
  cases cs with
  | nil => simp [collapseWs, h]
  | cons d cs => rw [collapseWs]; simp [h]

/-- `collapseWs` of a whitespace-headed list starts with a space. -/
lemma collapseWs_space_head :
    ∀ (l : List Char) (c : Char) (cs : List Char), l = c :: cs →
      isPySpace c = true → ∃ r, collapseWs l = ' ' :: r := by
  intro l
  induction l using collapseWs.induct with
  | case1 => intro c cs h _; cases h
  | case2 x hx =>
    intro c cs h hsp
    exact ⟨[], by simp [collapseWs, hx]⟩
  | case3 x hx =>
    intro c cs h hsp
    injection h with h1 h2
    subst h1
    rw [hsp] at hx
    exact absurd rfl hx
  | case4 x d cs hxd ih =>
    intro c cs' h hsp
    rw [collapseWs, if_pos hxd]
    exact ih d cs rfl (Bool.and_eq_true_iff.mp hxd).2
  | case5 x d cs hxd ih =>
    intro c cs' h hsp
    injection h with h1 h2
    subst h1
    rw [collapseWs, if_neg hxd, if_pos hsp]
    exact ⟨_, rfl⟩

/-- The shape property holds for `collapseWs`. -/
lemma collapseWs_shape (l : List Char) :
    collapseWs l = [] ∨
      (∃ a l', l = a :: l' ∧ collapseWs l = a :: collapseWs l') ∨
      (∃ a r, isPySpace a = true ∧ collapseWs l = a :: r) := by
  cases l with
  | nil => left; rfl
  | cons c cs =>
    by_cases h : isPySpace c = true
    · obtain ⟨r, hr⟩ := collapseWs_space_head (c :: cs) c cs rfl h
      right; right; exact ⟨' ', r, by decide, hr⟩
    · right; left
      exact ⟨c, cs, rfl, collapseWs_cons_nonspace c cs (by simpa using h)⟩

lemma noUrl_singleton (c : Char) : noUrl [c] = true := rfl

/-- `collapseWs` preserves absence of URL matches. -/
lemma noUrl_collapseWs (l : List Char) (h : noUrl l = true) :
    noUrl (collapseWs l) = true := by
  induction l using collapseWs.induct with
  | case1 => rfl
  | case2 c hc => rw [collapseWs, if_pos hc]; exact noUrl_singleton _
  | case3 c hc => rw [collapseWs, if_neg hc]; exact noUrl_singleton _
  | case4 c d cs hcd ih =>
    rw [collapseWs, if_pos hcd]
    exact ih (noUrl_tail h)
  | case5 c d cs hcd ih =>
    rw [collapseWs, if_neg hcd]
    have ihr := ih (noUrl_tail h)
    by_cases hc : isPySpace c = true
    · rw [if_pos hc]
      rcases hr : collapseWs (d :: cs) with _ | ⟨x, xs⟩
      · rfl
      · rw [noUrl_cons]
        refine Bool.and_eq_true_iff.mpr ⟨?_, by rwa [hr] at ihr⟩
        simp [startsUrlMatch_of_space ' ' _ (by decide)]
    · rw [if_neg hc]
      rcases hr : collapseWs (d :: cs) with _ | ⟨x, xs⟩
      · rfl
      · rw [noUrl_cons]
        refine Bool.and_eq_true_iff.mpr ⟨?_, by rwa [hr] at ihr⟩
        simp only [Bool.not_eq_true']
        by_contra hcon
        rw [Bool.not_eq_false] at hcon
        have := no_new_match_of_shape collapseWs collapseWs_shape c (d :: cs)
          (by rw [hr]; exact hcon)
        rw [noUrl_head h] at this
        cases this

lemma wsOk_tail {c : Char} {cs : List Char} (h : wsOk (c :: cs) = true) :
    wsOk cs = true := by
  cases cs with
  | nil => rfl
  | cons d cs => exact (Bool.and_eq_true_iff.mp h).2

/-- The output of `collapseWs` has collapsed-whitespace shape. -/
lemma wsOk_collapseWs (l : List Char) : wsOk (collapseWs l) = true := by
  induction l using collapseWs.induct with
  | case1 => rfl
  | case2 c hc => rw [collapseWs, if_pos hc]; rfl
  | case3 c hc =>
    rw [collapseWs, if_neg hc]
    simp only [wsOk, Bool.or_eq_true, Bool.not_eq_true']
    left
    simpa using hc
  | case4 c d cs hcd ih => rw [collapseWs, if_pos hcd]; exact ih
  | case5 c d cs hcd ih =>
    rw [collapseWs, if_neg hcd]
    by_cases hc : isPySpace c = true
    · rw [if_pos hc]
      have hd : isPySpace d = false := by
        cases hdb : isPySpace d
        · rfl
        · exfalso; rw [hc, hdb] at hcd; exact hcd rfl
      rw [collapseWs_cons_nonspace d cs hd] at ih ⊢
      rw [wsOk]
      refine Bool.and_eq_true_iff.mpr ⟨?_, ih⟩
      simp [hd]
    · rw [if_neg hc]
      rcases hr : collapseWs (d :: cs) with _ | ⟨x, xs⟩
      · simp [wsOk, hc]
      · rw [hr] at ih
        rw [wsOk]
        refine Bool.and_eq_true_iff.mpr ⟨?_, ih⟩
        simp [hc]

/-- Collapsed-whitespace lists are fixed points of `collapseWs`. -/
lemma collapseWs_of_wsOk (l : List Char) (h : wsOk l = true) :
    collapseWs l = l := by
  induction l using collapseWs.induct with
  | case1 => rfl
  | case2 c hc =>
    rw [collapseWs, if_pos hc]
    have : c = ' ' := by
      rcases Bool.or_eq_true_iff.mp h with h1 | h1
      · rw [hc] at h1; cases h1
      · exact of_decide_eq_true h1
    rw [this]
  | case3 c hc => rw [collapseWs, if_neg hc]
  | case4 c d cs hcd ih =>
    exfalso
    obtain ⟨hc, hd⟩ := Bool.and_eq_true_iff.mp hcd
    have h1 := (Bool.and_eq_true_iff.mp h).1
    rcases Bool.or_eq_true_iff.mp h1 with h2 | h2
    · rw [hc] at h2; cases h2
    · rw [hd] at h2
      simpa using (Bool.and_eq_true_iff.mp h2).2
  | case5 c d cs hcd ih =>
    rw [collapseWs, if_neg hcd, ih (wsOk_tail h)]
    have h1 := (Bool.and_eq_true_iff.mp h).1
    by_cases hc : isPySpace c = true
    · have : c = ' ' := by
        rcases Bool.or_eq_true_iff.mp h1 with h2 | h2
        · rw [hc] at h2; cases h2
        · exact of_decide_eq_true (Bool.and_eq_true_iff.mp h2).1
      rw [if_pos hc, this]
    · rw [if_neg hc]

lemma wsOk_singleton_of_cons {c : Char} {l₂ : List Char}
    (h : wsOk (c :: l₂) = true) : wsOk [c] = true := by
  cases l₂ with
  | nil => exact h
  | cons x xs =>
    have h1 := (Bool.and_eq_true_iff.mp h).1
    rw [wsOk]
    rcases Bool.or_eq_true_iff.mp h1 with h2 | h2
    · simp [h2]
    · simp [(Bool.and_eq_true_iff.mp h2).1]

lemma wsOk_append_left (l₁ l₂ : List Char) (h : wsOk (l₁ ++ l₂) = true) :
    wsOk l₁ = true := by
  induction l₁ with
  | nil => rfl
  | cons c l₁ ih =>
    cases l₁ with
    | nil => exact wsOk_singleton_of_cons (by simpa using h)
    | cons d l₁' =>
      rw [List.cons_append, List.cons_append] at h
      rw [wsOk]
      refine Bool.and_eq_true_iff.mpr ⟨(Bool.and_eq_true_iff.mp h).1, ?_⟩
      exact ih (by simpa using (Bool.and_eq_true_iff.mp h).2)

lemma wsOk_append_right (l₁ l₂ : List Char) (h : wsOk (l₁ ++ l₂) = true) :
    wsOk l₂ = true := by
  induction l₁ with
  | nil => exact h
  | cons c l₁ ih => exact ih (wsOk_tail (by rwa [List.cons_append] at h))

/-- Decomposition of a list into its trailing-whitespace-stripped part and
the stripped whitespace. -/
lemma dropTrailingWs_append (l : List Char) :
    ∃ t, l = dropTrailingWs l ++ t := by
  refine ⟨(l.reverse.takeWhile isPySpace).reverse, ?_⟩
  unfold dropTrailingWs
  have h := List.takeWhile_append_dropWhile (p := isPySpace) (l := l.reverse)
  calc l = l.reverse.reverse := (List.reverse_reverse l).symm
    _ = (List.takeWhile isPySpace l.reverse
          ++ List.dropWhile isPySpace l.reverse).reverse := by rw [h]
    _ = (List.dropWhile isPySpace l.reverse).reverse
          ++ (List.takeWhile isPySpace l.reverse).reverse := by
        rw [List.reverse_append]

lemma dropWhile_append (l : List Char) :
    ∃ t, l = t ++ l.dropWhile isPySpace :=
  ⟨l.takeWhile isPySpace, (List.takeWhile_append_dropWhile ..).symm⟩

lemma noUrl_stripWs (l : List Char) (h : noUrl l = true) :
    noUrl (stripWs l) = true := by
  unfold stripWs
  obtain ⟨t1, ht1⟩ := dropWhile_append l
  have h1 : noUrl (l.dropWhile isPySpace) = true :=
    noUrl_append_right t1 _ (by rwa [← ht1])
  obtain ⟨t2, ht2⟩ := dropTrailingWs_append (l.dropWhile isPySpace)
  exact noUrl_append_left _ t2 (by rwa [← ht2])

lemma wsOk_stripWs (l : List Char) (h : wsOk l = true) :
    wsOk (stripWs l) = true := by
  unfold stripWs
  obtain ⟨t1, ht1⟩ := dropWhile_append l
  have h1 : wsOk (l.dropWhile isPySpace) = true :=
    wsOk_append_right t1 _ (by rwa [← ht1])
  obtain ⟨t2, ht2⟩ := dropTrailingWs_append (l.dropWhile isPySpace)
  exact wsOk_append_left _ t2 (by rwa [← ht2])

lemma dropWhile_head_false {p : Char → Bool} :
    ∀ (l : List Char) (x : Char) (xs : List Char),
      l.dropWhile p = x :: xs → p x = false := by
  intro l
  induction l with
  | nil => intro x xs h; cases h
  | cons c cs ih =>
    intro x xs h
    rw [List.dropWhile_cons] at h
    split_ifs at h with hc
    · exact ih x xs h
    · injection h with h1 h2
      subst h1
      simpa using hc

/-- `stripWs` is idempotent. -/
lemma stripWs_idem (l : List Char) : stripWs (stripWs l) = stripWs l := by
  rcases hy : stripWs l with _ | ⟨x, ys⟩
  · rfl
  · -- head of the stripped list is not whitespace
    unfold stripWs at hy
    obtain ⟨t2, ht2⟩ := dropTrailingWs_append (l.dropWhile isPySpace)
    have hd : l.dropWhile isPySpace = (x :: ys) ++ t2 := by rw [← hy]; exact ht2
    have hx : isPySpace x = false := dropWhile_head_false l x (ys ++ t2) hd
    -- last of the stripped list is not whitespace
    have hrev : (dropTrailingWs (l.dropWhile isPySpace)).reverse
        = (l.dropWhile isPySpace).reverse.dropWhile isPySpace := by
      unfold dropTrailingWs
      rw [List.reverse_reverse]
    rw [hy] at hrev
    unfold stripWs
    rw [List.dropWhile_cons, if_neg (by simp [hx])]
    unfold dropTrailingWs
    rcases hrv : (x :: ys).reverse with _ | ⟨z, zs⟩
    · simp at hrv
    · have hz : isPySpace z = false := by
        apply dropWhile_head_false ((l.dropWhile isPySpace).reverse) z zs
        rw [← hrev, hrv]
      have h1 : List.dropWhile isPySpace (z :: zs) = z :: zs := by
        rw [List.dropWhile_cons]
        simp [hz]
      rw [h1, ← hrv, List.reverse_reverse]

lemma char_toNat_ofNat_valid (n : Nat) (h : Nat.isValidChar n) :
    (Char.ofNat n).toNat = n := by
  unfold Char.ofNat
  rw [dif_pos h]
  simp [Char.ofNatAux, Char.toNat, UInt32.toNat]

/-- `str.lower` is idempotent character-wise. -/
lemma toLower_idem (c : Char) : c.toLower.toLower = c.toLower := by
  unfold Char.toLower
  simp only []
  by_cases h1 : c.toNat ≥ 65 ∧ c.toNat ≤ 90
  · rw [if_pos h1]
    have hv : (Char.ofNat (c.toNat + 32)).toNat = c.toNat + 32 :=
      char_toNat_ofNat_valid _ (Or.inl (by omega))
    rw [if_neg (by rw [hv]; omega)]
  · rw [if_neg h1, if_neg h1]

lemma dropUrlRest_subset {a : Char} :
    ∀ l : List Char, a ∈ dropUrlRest l → a ∈ l := by
  intro l
  induction l with
  | nil => intro h; cases h
  | cons c cs ih =>
    rw [dropUrlRest]
    split_ifs with hc
    · exact id
    · intro h; exact List.mem_cons_of_mem c (ih h)

lemma removeUrls_subset {a : Char} :
    ∀ l : List Char, a ∈ removeUrls l → a ∈ l := by
  intro l
  induction l using removeUrls.induct with
  | case1 => rw [removeUrls_nil]; exact id
  | case2 c cs h ih =>
    rw [removeUrls_cons_match c cs h]
    intro hm
    exact List.mem_cons_of_mem c (List.mem_of_mem_drop (dropUrlRest_subset _ (ih hm)))
  | case3 c cs h ih =>
    rw [removeUrls_cons_nomatch c cs (by simpa using h)]
    intro hm
    rcases List.mem_cons.mp hm with rfl | hm
    · exact List.mem_cons_self a cs
    · exact List.mem_cons_of_mem c (ih hm)

lemma collapseWs_mem {a : Char} :
    ∀ l : List Char, a ∈ collapseWs l → a = ' ' ∨ a ∈ l := by
  intro l
  induction l using collapseWs.induct with
  | case1 => intro h; cases h
  | case2 c hc =>
    rw [collapseWs, if_pos hc]
    intro h
    rcases List.mem_singleton.mp h with rfl
    exact Or.inl rfl
  | case3 c hc =>
    rw [collapseWs, if_neg hc]
    exact fun h => Or.inr h
  | case4 c d cs hcd ih =>
    rw [collapseWs, if_pos hcd]
    intro h
    rcases ih h with h | h
    · exact Or.inl h
    · exact Or.inr (List.mem_cons_of_mem c h)
  | case5 c d cs hcd ih =>
    rw [collapseWs, if_neg hcd]
    intro h
    rcases List.mem_cons.mp h with rfl | h
    · by_cases hc : isPySpace c = true
      · rw [if_pos hc]; exact Or.inl rfl
      · rw [if_neg hc]; exact Or.inr (List.mem_cons_self _ _)
    · rcases ih h with h | h
      · exact Or.inl h
      · exact Or.inr (List.mem_cons_of_mem c h)

lemma stripWs_subset {a : Char} (l : List Char) (h : a ∈ stripWs l) : a ∈ l := by
  obtain ⟨t2, ht2⟩ := dropTrailingWs_append (l.dropWhile isPySpace)
  obtain ⟨t1, ht1⟩ := dropWhile_append l
  have h1 : a ∈ l.dropWhile isPySpace := by
    rw [ht2]; exact List.mem_append_left _ h
  rw [ht1]
  exact List.mem_append_right _ h1

/-- The normalization pipeline keeps every character lowercase. -/
lemma lowered_stages (s : List Char) :
    ∀ a ∈ stripWs (collapseWs (removeUrls (s.map Char.toLower))),
      a.toLower = a := by
  intro a ha
  have h1 := stripWs_subset _ ha
  rcases collapseWs_mem _ h1 with rfl | h2
  · decide
  · have h3 := removeUrls_subset _ h2
    obtain ⟨b, _, rfl⟩ := List.mem_map.mp h3
    exact toLower_idem b

/-- `normalize_text` is idempotent. -/
lemma normalize_text_idem (s : String) :
    normalize_text (normalize_text s) = normalize_text s := by
  by_cases hs : s = ""
  · rw [hs]; rfl
  · have hinner : normalize_text s
        = ⟨stripWs (collapseWs (removeUrls (s.data.map Char.toLower)))⟩ := by
      rw [normalize_text, if_neg hs]
    set m0 := s.data.map Char.toLower with hm0
    set m1 := removeUrls m0 with hm1
    set m2 := collapseWs m1 with hm2
    set y := stripWs m2 with hy
    rw [hinner]
    by_cases hye : (⟨y⟩ : String) = ""
    · rw [hye]; rfl
    · rw [normalize_text, if_neg hye]
      have hdata : (⟨y⟩ : String).data = y := rfl
      rw [hdata]
      have hlow : y.map Char.toLower = y := by
        have := List.map_congr_left
          (f := Char.toLower) (g := id) (l := y)
          (fun a ha => lowered_stages s.data a ha)
        rwa [List.map_id] at this
      have hnou : noUrl y = true :=
        noUrl_stripWs _ (noUrl_collapseWs _ (noUrl_removeUrls m0))
      have hwso : wsOk y = true := wsOk_stripWs _ (wsOk_collapseWs m1)
      have hru : removeUrls y = y := removeUrls_of_noUrl y hnou
      have hcw : collapseWs y = y := collapseWs_of_wsOk y hwso
      have hst : stripWs y = y := by rw [hy]; exact stripWs_idem m2
      rw [hlow, hru, hcw, hst]

lemma noUrl_normalize_text (s : String) :
    noUrl (normalize_text s).data = true := by
  by_cases hs : s = ""
  · rw [hs]; rfl
  · rw [normalize_text, if_neg hs]
    exact noUrl_stripWs _ (noUrl_collapseWs _ (noUrl_removeUrls _))

end BotDetection

namespace BotDetection

/-! ## Theorems for claims about bot_scorer.py -/

/-- The band rank of `classify_user t` as a step function of `t`. -/
lemma band_rank_classify (t : ℚ) :
    band_rank (classify_user t)
      = if t ≤ 35 then 0 else if t ≤ 60 then 1 else if t ≤ 85 then 2 else 3 := by
  unfold classify_user
  split_ifs <;> simp [band_rank]

/-- C1: classification is a pure, monotonic step function of the
post-discount total: `total ≤ 35 → "Likely Human"`, `35 < total ≤ 60 →
"Suspicious"`, `60 < total ≤ 85 → "Likely Bot"`, `85 < total → "Definite
Bot"`; boundary values map to the lower-adjacent band, and every account's
label is obtained by applying this step function to its total score. -/
theorem classification_bands (troll_farm_members : List String) (r : FeatureRow) (t u : ℚ) :
    classification troll_farm_members r
      = classify_user (total_score troll_farm_members r) ∧
    (t ≤ 35 → classify_user t = "Likely Human") ∧
    (35 < t → t ≤ 60 → classify_user t = "Suspicious") ∧
    (60 < t → t ≤ 85 → classify_user t = "Likely Bot") ∧
    (85 < t → classify_user t = "Definite Bot") ∧
    (t ≤ u → band_rank (classify_user t) ≤ band_rank (classify_user u)) := by
  refine ⟨rfl, ?_, ?_, ?_, ?_, ?_⟩
  · intro h; simp [classify_user, h]
  · intro h1 h2; simp [classify_user, h2, not_le.mpr (by linarith : (35:ℚ) < t)]
  · intro h1 h2
    simp [classify_user, h2, not_le.mpr (by linarith : (35:ℚ) < t),
      not_le.mpr (by linarith : (60:ℚ) < t)]
  · intro h
    simp [classify_user, not_le.mpr (by linarith : (35:ℚ) < t),
      not_le.mpr (by linarith : (60:ℚ) < t), not_le.mpr (by linarith : (85:ℚ) < t)]
  · intro htu
    rw [band_rank_classify, band_rank_classify]
    split_ifs <;> linarith

/-- C1 witness: concrete boundary evaluations, via `classification_bands`. -/
theorem classification_bands_witness :
    classify_user 35 = "Likely Human" ∧ classify_user (3501/100) = "Suspicious" ∧
    classify_user 60 = "Suspicious" ∧ classify_user (6001/100) = "Likely Bot" ∧
    classify_user 85 = "Likely Bot" ∧ classify_user (8501/100) = "Definite Bot" := by
  obtain ⟨-, h1, h2, h3, h4, -⟩ :=
    classification_bands [] defaultRow
      (35 : ℚ) (35 : ℚ)
  refine ⟨h1 (by norm_num), ?_, ?_, ?_, ?_, ?_⟩
  · exact (classification_bands [] defaultRow
      (3501/100 : ℚ) 0).2.2.1 (by norm_num) (by norm_num)
  · exact (classification_bands [] defaultRow
      (60 : ℚ) 0).2.2.1 (by norm_num) (by norm_num)
  · exact (classification_bands [] defaultRow
      (6001/100 : ℚ) 0).2.2.2.1 (by norm_num) (by norm_num)
  · exact (classification_bands [] defaultRow
      (85 : ℚ) 0).2.2.2.1 (by norm_num) (by norm_num)
  · exact (classification_bands [] defaultRow
      (8501/100 : ℚ) 0).2.2.2.2.1 (by norm_num)

/-- C2 counterexample: the account `midBandRow`, a member of the troll-farm
set, reaches the achievable post-discount total 85.5, which `_classify_user`
labels "Definite Bot" while `flagged_for_review` (total ≥ 86) stays false —
so being flagged is not synonymous with the top band. -/
theorem flagged_not_definite_bot_cex :
    total_score ["farm_user"] midBandRow = 171/2 ∧
    classification ["farm_user"] midBandRow = "Definite Bot" ∧
    flagged_for_review ["farm_user"] midBandRow = false := by
  refine ⟨?_, ?_, ?_⟩ <;> norm_num [classification, classify_user, total_score, total_score_before_verification, calculate_tier1_score, calculate_tier2_score, calculate_tier3_score, troll_farm_points, follower_ratio_points, engagement_points, favorites_points, account_age_points, lifetime_activity_points, reply_ratio_points, text_similarity_points, topic_concentration_points, posting_freq_points, hashtag_points, retweet_ratio_points, profile_completeness_points, flagged_for_review, is_verified_or_blue, midBandRow]

/-- C2 (amended): `flagged_for_review` holds iff the post-discount total is
≥ 86, and the classification is "Definite Bot" iff the total is > 85; hence
every flagged account is classified "Definite Bot", but not conversely —
the two predicates differ exactly on totals in the half-open gap (85, 86). -/
theorem flagged_iff_total_ge_86 (troll_farm_members : List String) (r : FeatureRow) :
    (flagged_for_review troll_farm_members r = true
      ↔ total_score troll_farm_members r ≥ 86) ∧
    (classification troll_farm_members r = "Definite Bot"
      ↔ total_score troll_farm_members r > 85) ∧
    (flagged_for_review troll_farm_members r = true
      → classification troll_farm_members r = "Definite Bot") := by
  have h1 : flagged_for_review troll_farm_members r = true
      ↔ total_score troll_farm_members r ≥ 86 := by
    simp [flagged_for_review]
  have h2 : classification troll_farm_members r = "Definite Bot"
      ↔ total_score troll_farm_members r > 85 := by
    unfold classification classify_user
    split_ifs with ha hb hc
    · constructor
      · intro h; simp_all
      · intro h; linarith
    · constructor
      · intro h; simp_all
      · intro h; linarith
    · constructor
      · intro h; simp_all
      · intro h; linarith
    · simp only [true_iff]
      push_neg at hc
      linarith
  exact ⟨h1, h2, fun h => h2.mpr (by linarith [h1.mp h])⟩

/-- C2 witness: a troll-farm member with maximal quiet-free indicators is
flagged, and `flagged_iff_total_ge_86` then forces the "Definite Bot"
label. -/
theorem flagged_iff_total_ge_86_witness :
    flagged_for_review ["farm_user"]
      { midBandRow with reply_ratio_pct := 80 } = true ∧
    classification ["farm_user"]
      { midBandRow with reply_ratio_pct := 80 } = "Definite Bot" := by
  have hf : flagged_for_review ["farm_user"]
      { midBandRow with reply_ratio_pct := 80 } = true := by norm_num [classification, classify_user, total_score, total_score_before_verification, calculate_tier1_score, calculate_tier2_score, calculate_tier3_score, troll_farm_points, follower_ratio_points, engagement_points, favorites_points, account_age_points, lifetime_activity_points, reply_ratio_points, text_similarity_points, topic_concentration_points, posting_freq_points, hashtag_points, retweet_ratio_points, profile_completeness_points, flagged_for_review, is_verified_or_blue, midBandRow]
  exact ⟨hf,
    (flagged_iff_total_ge_86 ["farm_user"]
      { midBandRow with reply_ratio_pct := 80 }).2.2 hf⟩

/-- The troll-farm indicator contributes between 0 and 15 points. -/
lemma troll_farm_points_bounds (troll_farm_members : List String) (r : FeatureRow) :
    0 ≤ troll_farm_points troll_farm_members r ∧
      troll_farm_points troll_farm_members r ≤ 15 := by
  unfold troll_farm_points; split_ifs <;> norm_num

/-- Each follower-ratio band value lies in [0, 15]. -/
lemma follower_ratio_points_bounds (r : FeatureRow) :
    0 ≤ follower_ratio_points r ∧ follower_ratio_points r ≤ 15 := by
  unfold follower_ratio_points; split_ifs <;> norm_num

/-- Each engagement band value lies in [0, 15]. -/
lemma engagement_points_bounds (r : FeatureRow) :
    0 ≤ engagement_points r ∧ engagement_points r ≤ 15 := by
  unfold engagement_points; split_ifs <;> norm_num

/-- Each favorites band value lies in [0, 15]. -/
lemma favorites_points_bounds (r : FeatureRow) :
    0 ≤ favorites_points r ∧ favorites_points r ≤ 15 := by
  unfold favorites_points; split_ifs <;> norm_num

/-- Each account-age band value lies in [0, 15]. -/
lemma account_age_points_bounds (r : FeatureRow) :
    0 ≤ account_age_points r ∧ account_age_points r ≤ 15 := by
  unfold account_age_points; split_ifs <;> norm_num

/-- Each lifetime-activity band value lies in [0, 15]. -/
lemma lifetime_activity_points_bounds (r : FeatureRow) :
    0 ≤ lifetime_activity_points r ∧ lifetime_activity_points r ≤ 15 := by
  unfold lifetime_activity_points; split_ifs <;> norm_num

/-- Each reply-ratio band value lies in [0, 15]. -/
lemma reply_ratio_points_bounds (r : FeatureRow) :
    0 ≤ reply_ratio_points r ∧ reply_ratio_points r ≤ 15 := by
  unfold reply_ratio_points; split_ifs <;> norm_num

/-- Each text-similarity band value lies in [0, 15]. -/
lemma text_similarity_points_bounds (r : FeatureRow) :
    0 ≤ text_similarity_points r ∧ text_similarity_points r ≤ 15 := by
  unfold text_similarity_points; split_ifs <;> norm_num

/-- Each topic-concentration band value lies in [0, 15]. -/
lemma topic_concentration_points_bounds (r : FeatureRow) :
    0 ≤ topic_concentration_points r ∧ topic_concentration_points r ≤ 15 := by
  unfold topic_concentration_points; split_ifs <;> norm_num

/-- Tier 1 lies in [0, 135]. -/
lemma tier1_bounds (troll_farm_members : List String) (r : FeatureRow) :
    0 ≤ calculate_tier1_score troll_farm_members r ∧
      calculate_tier1_score troll_farm_members r ≤ 135 := by
  obtain ⟨a0, a1⟩ := troll_farm_points_bounds troll_farm_members r
  obtain ⟨b0, b1⟩ := follower_ratio_points_bounds r
  obtain ⟨c0, c1⟩ := engagement_points_bounds r
  obtain ⟨d0, d1⟩ := favorites_points_bounds r
  obtain ⟨e0, e1⟩ := account_age_points_bounds r
  obtain ⟨f0, f1⟩ := lifetime_activity_points_bounds r
  obtain ⟨g0, g1⟩ := reply_ratio_points_bounds r
  obtain ⟨i0, i1⟩ := text_similarity_points_bounds r
  obtain ⟨j0, j1⟩ := topic_concentration_points_bounds r
  unfold calculate_tier1_score
  constructor <;> linarith

/-- Tier 2 lies in [0, 30]. -/
lemma tier2_bounds (r : FeatureRow) :
    0 ≤ calculate_tier2_score r ∧ calculate_tier2_score r ≤ 30 := by
  have h : 0 ≤ posting_freq_points r ∧ posting_freq_points r ≤ 10 := by
    unfold posting_freq_points; split_ifs <;> norm_num
  obtain ⟨h0, h1⟩ := h
  unfold calculate_tier2_score
  split_ifs <;> constructor <;> linarith

/-- Tier 3 lies in [0, 20]. -/
lemma tier3_bounds (r : FeatureRow) :
    0 ≤ calculate_tier3_score r ∧ calculate_tier3_score r ≤ 20 := by
  have hh : 0 ≤ hashtag_points r ∧ hashtag_points r ≤ 5 := by
    unfold hashtag_points; split_ifs <;> norm_num
  have hr : 0 ≤ retweet_ratio_points r ∧ retweet_ratio_points r ≤ 5 := by
    unfold retweet_ratio_points; split_ifs <;> norm_num
  have hp : 0 ≤ profile_completeness_points r ∧ profile_completeness_points r ≤ 5 := by
    unfold profile_completeness_points
    split_ifs <;> constructor <;>
      first
        | exact le_min (by norm_num) (by norm_num)
        | exact min_le_right _ _
        | exact le_trans (min_le_left _ _) (by norm_num)
  obtain ⟨a0, a1⟩ := hh
  obtain ⟨b0, b1⟩ := hr
  obtain ⟨c0, c1⟩ := hp
  unfold calculate_tier3_score
  split_ifs <;> constructor <;> linarith

/-- C3: for every account the pre-discount total equals the sum of the
three tier subtotals, and lies in the interval [0, 185]. -/
theorem total_before_verification_bounds (troll_farm_members : List String)
    (r : FeatureRow) :
    total_score_before_verification troll_farm_members r
      = calculate_tier1_score troll_farm_members r
        + calculate_tier2_score r + calculate_tier3_score r ∧
    0 ≤ total_score_before_verification troll_farm_members r ∧
    total_score_before_verification troll_farm_members r ≤ 185 := by
  obtain ⟨a0, a1⟩ := tier1_bounds troll_farm_members r
  obtain ⟨b0, b1⟩ := tier2_bounds r
  obtain ⟨c0, c1⟩ := tier3_bounds r
  refine ⟨rfl, ?_, ?_⟩ <;> unfold total_score_before_verification <;> linarith

/-- C4: verified-or-blue accounts receive exactly the flat 25% reduction
(`total = total_before * 0.75`); all other accounts keep their pre-discount
total unchanged. -/
theorem verification_discount (troll_farm_members : List String) (r : FeatureRow) :
    ((r.is_verified = true ∨ r.has_blue = true) ↔ is_verified_or_blue r = true) ∧
    (is_verified_or_blue r = true →
      total_score troll_farm_members r
        = total_score_before_verification troll_farm_members r * (75/100)) ∧
    (is_verified_or_blue r = false →
      total_score troll_farm_members r
        = total_score_before_verification troll_farm_members r) := by
  refine ⟨?_, ?_, ?_⟩
  · simp [is_verified_or_blue]
  · intro h; simp [total_score, h]
  · intro h; simp [total_score, h]

/-- C6 counterexample: the input `"http"` — four characters with nothing
after them — is not matched by the regex `http\S+|https\S+` (which demands
at least one non-whitespace character after `http`), so normalization
returns it unchanged and the output still contains an `http` token. -/
theorem normalize_strips_http_cex :
    normalize_text "http" = "http" ∧
    hasHttpToken (normalize_text "http") = true := by
  constructor
  · simp +decide [normalize_text, removeUrls, dropUrlRest, collapseWs, stripWs,
      dropTrailingWs]
  · simp +decide [normalize_text, removeUrls, dropUrlRest, collapseWs, stripWs,
      dropTrailingWs, hasHttpToken, hasHttpTokenAux, startsWithHttp]

/-- C6 (amended): `normalize_text` is idempotent, and the normalized output
contains no match of the URL regex — no occurrence of `http` followed by a
non-whitespace character, anywhere in the string.  (A bare trailing `http`
with nothing after it survives normalization, per the counterexample.) -/
theorem normalize_text_idempotent (s : String) :
    normalize_text (normalize_text s) = normalize_text s ∧
    noUrl (normalize_text s).data = true :=
  ⟨normalize_text_idem s, noUrl_normalize_text s⟩

/-- C7: a post is retained by `filter_original_tweets` iff its
retweet-indicator cell is null, boolean false, the empty string, or one of
the literal strings `"False"`, `"nan"`, `"[]"`; every other value is
excluded. -/
theorem filter_original_tweets_iff (v : CellValue) (posts : List RawPost)
    (p : RawPost) :
    (is_original_tweet v = true ↔
      (v = .null ∨ v = .boolean false ∨ v = .str "False" ∨ v = .str "" ∨
        v = .str "nan" ∨ v = .str "[]")) ∧
    (p ∈ filter_original_tweets posts ↔
      p ∈ posts ∧ is_original_tweet p.retweetedTweet = true) := by
  constructor
  · cases v with
    | null => simp [is_original_tweet]
    | boolean b => cases b <;> simp [is_original_tweet]
    | str s => simp [is_original_tweet]; aesop
  · simp [filter_original_tweets, List.mem_filter]

/-- C5: a message group qualifies as a troll farm iff it has at least
`min_accounts` distinct posting usernames and its bot percentage reaches
`min_bot_percentage`; on the synthetic corpus, ten identically-posting
accounts all scored "Definite Bot" yield exactly one farm of size 10 with
bot percentage 100, while nine such accounts, or ten accounts with only
four bot labels, yield no farm. -/
theorem troll_farm_qualification :
    (∀ (bot_scores : List ScoreRow) (posts : List (String × String))
       (m : String) (min_accounts : ℕ) (min_bot_percentage : ℚ),
       m ∈ identify_troll_farms bot_scores posts min_accounts min_bot_percentage
         ↔ m ∈ normalized_messages posts ∧
           min_accounts ≤ (group_usernames posts m).length ∧
           min_bot_percentage
             ≤ farm_bot_percentage bot_scores (group_usernames posts m)) ∧
    detect_troll_farms scoresAllBot tenBotRaw 10 50 = ["go vote"] ∧
    (group_usernames (normalize_posts (filter_original_tweets tenBotRaw))
      "go vote").length = 10 ∧
    farm_bot_percentage scoresAllBot
      (group_usernames (normalize_posts (filter_original_tweets tenBotRaw))
        "go vote") = 100 ∧
    detect_troll_farms scoresAllBot nineBotRaw 10 50 = [] ∧
    detect_troll_farms scoresFourBot tenBotRaw 10 50 = [] := by
  have hnorm : normalize_posts (filter_original_tweets tenBotRaw) = tenPairs := by
    simp +decide [normalize_posts, filter_original_tweets, is_original_tweet,
      tenBotRaw, tenPairs, normalize_text, removeUrls, dropUrlRest, collapseWs,
      stripWs, dropTrailingWs, List.filter]
  have hnorm9 : normalize_posts (filter_original_tweets nineBotRaw) = ninePairs := by
    simp +decide [normalize_posts, filter_original_tweets, is_original_tweet,
      nineBotRaw, tenBotRaw, ninePairs, tenPairs, normalize_text, removeUrls,
      dropUrlRest, collapseWs, stripWs, dropTrailingWs, List.filter]
  have hglen : (group_usernames tenPairs "go vote").length = 10 := by decide
  have hglen9 : (group_usernames ninePairs "go vote").length = 9 := by decide
  have hcount : farm_bot_count scoresAllBot (group_usernames tenPairs "go vote")
      = 10 := by decide
  have hcount4 : farm_bot_count scoresFourBot (group_usernames tenPairs "go vote")
      = 4 := by decide
  have hpct : farm_bot_percentage scoresAllBot (group_usernames tenPairs "go vote")
      = 100 := by
    rw [farm_bot_percentage, hcount, hglen]
    norm_num
  have hpct4 : farm_bot_percentage scoresFourBot (group_usernames tenPairs "go vote")
      = 40 := by
    rw [farm_bot_percentage, hcount4, hglen]
    norm_num
  have hmsgs : normalized_messages tenPairs = ["go vote"] := by decide
  have hmsgs9 : normalized_messages ninePairs = ["go vote"] := by decide
  refine ⟨?_, ?_, ?_, ?_, ?_, ?_⟩
  · intro bot_scores posts m min_accounts min_bot_percentage
    simp [identify_troll_farms, List.mem_filter, is_troll_farm,
      Bool.and_eq_true, decide_eq_true_eq, and_assoc]
  · rw [detect_troll_farms, hnorm, identify_troll_farms, hmsgs]
    have hfarm : is_troll_farm scoresAllBot tenPairs "go vote" 10 50 = true := by
      simp only [is_troll_farm, Bool.and_eq_true, decide_eq_true_eq]
      rw [hglen, hpct]
      norm_num
    simp [List.filter, hfarm]
  · rw [hnorm]; exact hglen
  · rw [hnorm]; exact hpct
  · rw [detect_troll_farms, hnorm9, identify_troll_farms, hmsgs9]
    have hfarm9 : is_troll_farm scoresAllBot ninePairs "go vote" 10 50 = false := by
      simp only [is_troll_farm, Bool.and_eq_false_iff]
      left
      rw [hglen9]
      simp
    simp [List.filter, hfarm9]
  · rw [detect_troll_farms, hnorm, identify_troll_farms, hmsgs]
    have hfarm4 : is_troll_farm scoresFourBot tenPairs "go vote" 10 50 = false := by
      simp only [is_troll_farm, Bool.and_eq_false_iff]
      right
      rw [hpct4]
      norm_num
    simp [List.filter, hfarm4]

/-- C10: a group member absent from the pass-1 score table receives a
missing classification from the left join, is counted as non-bot, still
counts toward group size, and therefore can only lower the group's bot
percentage. -/
theorem unscored_member_counts_nonbot (bot_scores : List ScoreRow)
    (users : List String) (u : String)
    (h : ∀ row ∈ bot_scores, row.username ≠ u) :
    lookup_classification bot_scores u = none ∧
    is_bot_classified bot_scores u = false ∧
    (users ++ [u]).length = users.length + 1 ∧
    farm_bot_count bot_scores (users ++ [u]) = farm_bot_count bot_scores users ∧
    (users ≠ [] →
      farm_bot_percentage bot_scores (users ++ [u])
        ≤ farm_bot_percentage bot_scores users) := by
  have hfind : List.find? (fun row => decide (row.username = u)) bot_scores
      = none := by
    rw [List.find?_eq_none]
    intro row hrow
    simpa using h row hrow
  have hlook : lookup_classification bot_scores u = none := by
    rw [lookup_classification, hfind]
    rfl
  have hbot : is_bot_classified bot_scores u = false := by
    rw [is_bot_classified, hlook]
  have hcount : farm_bot_count bot_scores (users ++ [u])
      = farm_bot_count bot_scores users := by
    rw [farm_bot_count, farm_bot_count, List.filter_append]
    simp [List.filter, hbot]
  refine ⟨hlook, hbot, by simp, hcount, ?_⟩
  intro hne
  rw [farm_bot_percentage, farm_bot_percentage, hcount]
  have hk : (farm_bot_count bot_scores users : ℚ) ≤ users.length := by
    exact_mod_cast List.length_filter_le _ _
  have hn : (1 : ℚ) ≤ users.length := by
    have := List.length_pos.mpr hne
    exact_mod_cast this
  have hlen : (((users ++ [u]).length : ℕ) : ℚ) = (users.length : ℚ) + 1 := by
    rw [List.length_append]
    push_cast
    norm_num
  rw [hlen]
  have hk0 : (0 : ℚ) ≤ farm_bot_count bot_scores users := by positivity
  have hdiv : (farm_bot_count bot_scores users : ℚ) / ((users.length : ℚ) + 1)
      ≤ (farm_bot_count bot_scores users : ℚ) / (users.length : ℚ) := by
    apply div_le_div_of_nonneg_left hk0 (by linarith) (by linarith)
  exact mul_le_mul_of_nonneg_right hdiv (by norm_num)

/-- C10 witness: a one-row score table, a scored member and an unscored
member, via `unscored_member_counts_nonbot`. -/
theorem unscored_member_counts_nonbot_witness :
    is_bot_classified [⟨"a", "Definite Bot", 90⟩] "b" = false ∧
    farm_bot_percentage [⟨"a", "Definite Bot", 90⟩] (["a"] ++ ["b"])
      ≤ farm_bot_percentage [⟨"a", "Definite Bot", 90⟩] ["a"] := by
  obtain ⟨-, h1, -, -, h2⟩ :=
    unscored_member_counts_nonbot [⟨"a", "Definite Bot", 90⟩] ["a"] "b"
      (by intro row hrow; simp at hrow; rw [hrow]; decide)
  exact ⟨h1, h2 (by simp)⟩

/-- C8 counterexample: with followers = 1 and following = 3 the extractor
returns 0.333 — a three-decimal value — not the two-decimal rounding 0.33,
so `follower_following_ratio` is not rounded to exactly 2 decimal
places. -/
theorem follower_ratio_three_decimals_cex :
    calc_follower_ratio 1 3 = 333/1000 ∧
    calc_follower_ratio 1 3 ≠ pyRound 2 (1/3) ∧
    pyRound 2 (1/3) = 33/100 := by
  have h1 : calc_follower_ratio 1 3 = 333/1000 := by
    rw [calc_follower_ratio, if_neg (by norm_num), pyRound, roundHalfEven]
    norm_num [Int.fract]
  have h2 : pyRound 2 (1/3) = 33/100 := by
    rw [pyRound, roundHalfEven]
    norm_num [Int.fract]
  exact ⟨h1, by rw [h1, h2]; norm_num, h2⟩

/-- C8 (amended): the FeatureExtractor's ratio fields are rounded, but not
all to the same precision: `follower_following_ratio` and
`favorites_tweets_ratio` are rounded to exactly 3 decimal places
(`round(…, 3)`), while `avg_engagement_per_tweet` (like the percentage
fields) is rounded to 2; scoring thresholds compare against these rounded
values. -/
theorem ratio_rounding (followers following favorites statuses : ℚ)
    (posts : List (Option ℚ × Option ℚ × Option ℚ)) :
    (∃ k : ℤ, calc_follower_ratio followers following = (k : ℚ) / 1000) ∧
    (∃ k : ℤ, calc_favorites_ratio favorites statuses = (k : ℚ) / 1000) ∧
    (∃ k : ℤ, calc_engagement_rate posts = (k : ℚ) / 100) := by
  refine ⟨⟨roundHalfEven ((if following = 0 then 999 else followers / following)
      * 10 ^ 3), ?_⟩,
    ⟨roundHalfEven ((if statuses = 0 then 0 else favorites / statuses)
      * 10 ^ 3), ?_⟩,
    ⟨roundHalfEven ((if (posts.map (fun t => t.1.getD 0 + t.2.1.getD 0
        + t.2.2.getD 0)) = [] then 0
      else (posts.map (fun t => t.1.getD 0 + t.2.1.getD 0 + t.2.2.getD 0)).sum
        / (posts.map (fun t => t.1.getD 0 + t.2.1.getD 0 + t.2.2.getD 0)).length)
      * 10 ^ 2), ?_⟩⟩
  · rw [calc_follower_ratio, pyRound]; norm_num
  · rw [calc_favorites_ratio, pyRound]; norm_num
  · rw [calc_engagement_rate, pyRound]; norm_num

/-- C9 counterexample: the extractor reads the wall clock in
`_calc_account_activity`, so two runs on the identical record at different
clock readings give different FeatureVectors: 100 posts over 50 days is
2.0 posts/day, over 100 days 1.0. -/
theorem extractor_clock_dependent_cex :
    (extract_features clockRecord 50).lifetime_tweets_per_day = 2 ∧
    (extract_features clockRecord 100).lifetime_tweets_per_day = 1 ∧
    extract_features clockRecord 50 ≠ extract_features clockRecord 100 := by
  have h50 : (extract_features clockRecord 50).lifetime_tweets_per_day = 2 := by
    show calc_account_activity 100 (some 0) 50 = 2
    rw [calc_account_activity]
    norm_num [pyRound, roundHalfEven, Int.fract]
  have h100 : (extract_features clockRecord 100).lifetime_tweets_per_day = 1 := by
    show calc_account_activity 100 (some 0) 100 = 1
    rw [calc_account_activity]
    norm_num [pyRound, roundHalfEven, Int.fract]
  refine ⟨h50, h100, fun hc => ?_⟩
  have := congrArg FeatureVec.lifetime_tweets_per_day hc
  rw [h50, h100] at this
  norm_num at this

/-- C9 (amended): feature extraction is a pure function of the input
record and the current clock reading; the clock enters only through
`lifetime_tweets_per_day`, so all other embedded fields agree across any
two runs, and runs with equal clock readings produce identical
FeatureVectors. -/
theorem extractor_deterministic_given_clock (r : AccountRecord) (t t' : ℤ) :
    (extract_features r t).follower_following_ratio
      = (extract_features r t').follower_following_ratio ∧
    (extract_features r t).favorites_tweets_ratio
      = (extract_features r t').favorites_tweets_ratio ∧
    (extract_features r t).avg_engagement_per_tweet
      = (extract_features r t').avg_engagement_per_tweet ∧
    (t = t' → extract_features r t = extract_features r t') :=
  ⟨rfl, rfl, rfl, fun h => by rw [h]⟩

/-- C9 witness: concrete clock readings 50 and 100 on `clockRecord`, via
`extractor_deterministic_given_clock`. -/
theorem extractor_deterministic_given_clock_witness :
    (extract_features clockRecord 50).avg_engagement_per_tweet
      = (extract_features clockRecord 100).avg_engagement_per_tweet ∧
    extract_features clockRecord 50 = extract_features clockRecord 50 :=
  ⟨(extractor_deterministic_given_clock clockRecord 50 100).2.2.1,
   (extractor_deterministic_given_clock clockRecord 50 50).2.2.2 rfl⟩

/-- C4 witness: a verified variant of `midBandRow` has its 85.5 pre-discount
total reduced to 64.125 = 85.5 · 0.75, via `verification_discount`. -/
theorem verification_discount_witness :
    total_score ["farm_user"] { midBandRow with is_verified := true } = 513/8 ∧
    total_score ["farm_user"] { midBandRow with is_verified := false } = 171/2 := by
  constructor
  · have h := (verification_discount ["farm_user"]
      { midBandRow with is_verified := true }).2.1 (by simp [is_verified_or_blue])
    rw [h]
    norm_num [classification, classify_user, total_score, total_score_before_verification, calculate_tier1_score, calculate_tier2_score, calculate_tier3_score, troll_farm_points, follower_ratio_points, engagement_points, favorites_points, account_age_points, lifetime_activity_points, reply_ratio_points, text_similarity_points, topic_concentration_points, posting_freq_points, hashtag_points, retweet_ratio_points, profile_completeness_points, flagged_for_review, is_verified_or_blue, midBandRow]
  · have h := (verification_discount ["farm_user"]
      { midBandRow with is_verified := false }).2.2 (by simp [is_verified_or_blue, midBandRow])
    rw [h]
    norm_num [classification, classify_user, total_score, total_score_before_verification, calculate_tier1_score, calculate_tier2_score, calculate_tier3_score, troll_farm_points, follower_ratio_points, engagement_points, favorites_points, account_age_points, lifetime_activity_points, reply_ratio_points, text_similarity_points, topic_concentration_points, posting_freq_points, hashtag_points, retweet_ratio_points, profile_completeness_points, flagged_for_review, is_verified_or_blue, midBandRow]

end BotDetection
